/-
Verification of SafeMapperBackend (src/apih.py): a shallow embedding in
Lean 4 of the risk-scoring and route-selection engine, with theorems
checking the natural-language specification against the code.

Modelling conventions:
* Python floats are modelled as rationals (ℚ); the trigonometric
  haversine distance is modelled over the reals (ℝ).
* `round(x, 3)` is modelled by `round3` (round half to even, Python's
  documented rounding mode).
* Each upstream fetch+parse is modelled by an `Option`/`Except` input:
  `none`/`.error` means the fetch or the parsing of its payload raised,
  landing in the corresponding `except` branch of the source.
* FastAPI's `HTTPException` and Python exceptions are modelled by
  explicit sum types; the `try ... except Exception` block of
  `find_safest_route` is modelled by an `Except PyExc` computation whose
  error is converted to a 500 response, exactly as the source's
  catch-all does.
-/

import Mathlib

namespace SafeMapper

/-! ## Rounding: Python's `round(x, 3)` (half to even) on our ℚ model -/

/-- `round(x, 3)`: scale by 1000, round half to even, scale back. -/
def round3 (x : ℚ) : ℚ :=
  let y := x * 1000
  let f := ⌊y⌋
  let r := y - f
  let n : ℤ :=
    if 1/2 < r then f + 1
    else if r < 1/2 then f
    else if f % 2 = 0 then f else f + 1
  (n : ℚ) / 1000

/-! ## GeoMath: `haversine` (src/apih.py lines 21-27) -/

/-- `math.radians`. -/
noncomputable def radians (x : ℝ) : ℝ := x * (Real.pi / 180)

/-- `math.atan2 y x`. -/
noncomputable def atan2 (y x : ℝ) : ℝ :=
  if 0 < x then Real.arctan (y / x)
  else if x < 0 then
    (if 0 ≤ y then Real.arctan (y / x) + Real.pi
     else Real.arctan (y / x) - Real.pi)
  else
    (if 0 < y then Real.pi / 2 else if y < 0 then -(Real.pi / 2) else 0)

/-- `haversine(lat1, lon1, lat2, lon2)` with Earth radius `R = 6371` km. -/
noncomputable def haversine (lat1 lon1 lat2 lon2 : ℝ) : ℝ :=
  let R : ℝ := 6371
  let dlat := radians (lat2 - lat1)
  let dlon := radians (lon2 - lon1)
  let a := Real.sin (dlat / 2) ^ 2 +
    Real.cos (radians lat1) * Real.cos (radians lat2) * Real.sin (dlon / 2) ^ 2
  let c := 2 * atan2 (Real.sqrt a) (Real.sqrt (1 - a))
  R * c

/-- Helper: the haversine distance from a point to itself is zero. -/
theorem haversine_self_zero (lat lon : ℝ) : haversine lat lon lat lon = 0 := by
  unfold haversine radians atan2
  simp [Real.sqrt_one, Real.arctan_zero]

/-- Helper: the haversine distance is symmetric in its two points. -/
theorem haversine_symm (lat1 lon1 lat2 lon2 : ℝ) :
    haversine lat1 lon1 lat2 lon2 = haversine lat2 lon2 lat1 lon1 := by
  unfold haversine radians
  dsimp only
  have hs : ∀ p q : ℝ,
      Real.sin ((p - q) * (Real.pi / 180) / 2) ^ 2
        = Real.sin ((q - p) * (Real.pi / 180) / 2) ^ 2 := by
    intro p q
    have h : (p - q) * (Real.pi / 180) / 2 = -((q - p) * (Real.pi / 180) / 2) := by
      ring
    rw [h, Real.sin_neg]
    ring
  rw [hs lat2 lat1, hs lon2 lon1,
    mul_comm (Real.cos (lat1 * (Real.pi / 180))) (Real.cos (lat2 * (Real.pi / 180)))]

/-! ## SignalSources (src/apih.py lines 29-102)

Each upstream fetch+parse is an `Option` input; `none` is the branch the
source reaches through `except Exception`. -/

/-- One feature of the GDACS `latest_events()` payload, as the fields
`get_incident_density` reads: `geometry.coordinates[1]` (lat),
`geometry.coordinates[0]` (lon), `properties.severitydata.severity`
(default 0 when missing). -/
structure GDACSEvent where
  lat : ℚ
  lon : ℚ
  severity : ℚ
deriving DecidableEq

/-- `get_incident_density(lat, lon)`: for every event within 300 km add
`min(severity/10, 1)`; return `min(score, 1)`; on fetch/parse failure 0. -/
noncomputable def get_incident_density (lat lon : ℚ)
    (events : Option (List GDACSEvent)) : ℚ :=
  match events with
  | none => 0
  | some evs =>
    let score := evs.foldl
      (fun score event =>
        if haversine lat lon event.lat event.lon < 300 then
          score + min (event.severity / 10) 1
        else score) 0
    min score 1

/-- A UTC wall-clock time, holding exactly the fields `to_minutes` reads
(`dt.hour`, `dt.minute`). -/
structure UTCTime where
  hour : ℕ
  minute : ℕ
deriving DecidableEq

/-- `to_minutes(dt) = dt.hour * 60 + dt.minute`. -/
def to_minutes (t : UTCTime) : ℕ := t.hour * 60 + t.minute

/-- The parsed `daily` block (`sunrise[0]`, `sunset[0]`) consumed by
`get_night_factor`. -/
structure DailyData where
  sunrise : UTCTime
  sunset : UTCTime
deriving DecidableEq

/-- The fields of a successful open-meteo payload that
`get_weather_severity` reads.  `daily = none` models a payload whose
`daily` block is present but fails to parse later in `get_night_factor`. -/
structure WeatherPayload where
  windspeed : ℚ
  weathercode : ℤ
  daily : Option DailyData
deriving DecidableEq

/-- `get_weather_severity(lat, lon)`: +0.5 if wind > 40, +0.3 for rain
codes 61/63/65, +0.7 for thunderstorm codes 95/96/99, capped at 1;
returns the score together with the `daily` block.  On failure returns
`(0, sunrise = sunset = now)`. -/
def get_weather_severity (payload : Option WeatherPayload) (now : UTCTime) :
    ℚ × Option DailyData :=
  match payload with
  | none => (0, some ⟨now, now⟩)
  | some p =>
    let score : ℚ :=
      (if 40 < p.windspeed then 1/2 else 0) +
      (if p.weathercode = 61 ∨ p.weathercode = 63 ∨ p.weathercode = 65
        then 3/10 else 0) +
      (if p.weathercode = 95 ∨ p.weathercode = 96 ∨ p.weathercode = 99
        then 7/10 else 0)
    (min score 1, p.daily)

/-- `get_road_isolation(lat, lon)`: the input is the parsed road count
`int(...tags.ways)` of the Overpass response (`none` = fetch/parse
failure, giving 0.5); score `1 - min(road_count / 50, 1)`. -/
def get_road_isolation (road_count : Option ℤ) : ℚ :=
  match road_count with
  | none => 1/2
  | some n => 1 - min ((n : ℚ) / 50) 1

/-- `get_poi_inverse(lat, lon)`: the input is the parsed amenity count
`int(...tags.nodes)` (`none` = failure, giving 0.5); score
`1 - min(poi_count / 30, 1)`. -/
def get_poi_inverse (poi_count : Option ℤ) : ℚ :=
  match poi_count with
  | none => 1/2
  | some n => 1 - min ((n : ℚ) / 30) 1

/-- `get_night_factor(daily_data)`: solar noon is the midpoint of
sunrise and sunset in minutes-since-midnight; score
`round(min(|now - noon| / 720, 1), 3)`; 0.5 when parsing fails. -/
def get_night_factor (daily : Option DailyData) (now : UTCTime) : ℚ :=
  match daily with
  | none => 1/2
  | some d =>
    let now_m : ℚ := to_minutes now
    let sunrise_m : ℚ := to_minutes d.sunrise
    let sunset_m : ℚ := to_minutes d.sunset
    let noon_m := (sunrise_m + sunset_m) / 2
    let distance := |now_m - noon_m|
    round3 (min (distance / 720) 1)

/-! ## RouteSampler: `full_coords[::20]` (src/apih.py line 168) -/

/-- Python slicing `l[::20]`, written with a skip counter: keep the
element when the counter is 0 (then skip the next 19), else count down. -/
def sampleAux {α : Type} : ℕ → List α → List α
  | _, [] => []
  | 0, x :: xs => x :: sampleAux 19 xs
  | n + 1, _ :: xs => sampleAux n xs

/-- `sampled_points = full_coords[::20]`. -/
def sampleStep {α : Type} (l : List α) : List α := sampleAux 0 l

/-! ## RouteSelector state and upstream world (src/apih.py lines 104-198) -/

/-- The process-wide globals `startlt, startln, endlt, endln, pari`. -/
structure AppState where
  startlt : ℚ
  startln : ℚ
  endlt : ℚ
  endln : ℚ
  pari : ℚ
deriving DecidableEq

/-- Module initialisation: `pari = 0.0`, all coordinates `0.0`
(src/apih.py lines 104-112). -/
def initialState : AppState := ⟨0, 0, 0, 0, 0⟩

/-- `POST /get-cords`: overwrites the four coordinate globals. -/
def get_cords (st : AppState) (start_lat start_lon end_lat end_lon : ℚ) :
    AppState :=
  { st with startlt := start_lat, startln := start_lon,
            endlt := end_lat, endln := end_lon }

/-- One GraphHopper path; `points` is its polyline-decoded geometry
(`polyline.decode(path["points"])`), a list of (lat, lon) pairs. -/
structure GHPath where
  points : List (ℚ × ℚ)
deriving DecidableEq

/-- A parsed GraphHopper JSON body: the optional `"paths"` list and the
optional `"message"` field read when `"paths"` is absent. -/
structure GHData where
  paths : Option (List GHPath)
  message : Option String
deriving DecidableEq

/-- The upstream world a `/find-safest-route` request observes:
`gh` is the GraphHopper fetch (`.error msg` = `requests.get`/`.json()`
raised with message `msg`); `gdacs`, `weather` the origin-point fetches;
`roadResp`/`poiResp` the per-point Overpass counts; `nowT` the UTC
wall-clock time. -/
structure World where
  gh : Except String GHData
  gdacs : Option (List GDACSEvent)
  weather : Option WeatherPayload
  nowT : UTCTime
  roadResp : ℚ × ℚ → Option ℤ
  poiResp : ℚ × ℚ → Option ℤ

/-- One entry of `routes_analysis`. -/
structure RouteAnalysis where
  route_id : ℕ
  average_risk : ℚ
  geometry : List (ℚ × ℚ)
deriving DecidableEq

/-- A FastAPI `HTTPException`. -/
structure HTTPError where
  status_code : ℕ
  detail : String
deriving DecidableEq

/-- A Python exception as the catch-all `except Exception as e` sees it:
either an `HTTPException` raised inside the `try` block or any other
exception carrying its message. -/
inductive PyExc where
  | http (e : HTTPError)
  | other (msg : String)
deriving DecidableEq

/-- Python `str(e)`; Starlette's `HTTPException.__str__` is
`f"{status_code}: {detail}"`. -/
def PyExc.str : PyExc → String
  | .http e => toString e.status_code ++ ": " ++ e.detail
  | .other m => m

/-- The `for idx, path in enumerate(gh_data["paths"])` loop
(src/apih.py lines 164-185): per sampled point the risk is
`0.35*incident + 0.20*road + 0.10*weather + 0.15*poi + 0.10*night`;
`avg_risk = sum(route_risks)/len(route_risks)` (a `ZeroDivisionError`
when a path decodes to no points), stored rounded to 3 decimals with
`route_id = idx + 1` and the full decoded geometry. -/
def analyzeRoutes (incident_density weather_severity night_factor : ℚ)
    (road poi : ℚ × ℚ → ℚ) :
    List GHPath → ℕ → Except PyExc (List RouteAnalysis)
  | [], _ => .ok []
  | p :: ps, idx =>
    let full_coords := p.points
    let sampled_points := sampleStep full_coords
    let route_risks := sampled_points.map
      (fun c => 0.35 * incident_density + 0.20 * road c +
        0.10 * weather_severity + 0.15 * poi c + 0.10 * night_factor)
    if route_risks.length = 0 then .error (.other "division by zero")
    else
      let avg_risk := route_risks.sum / (route_risks.length : ℚ)
      match analyzeRoutes incident_density weather_severity night_factor
          road poi ps (idx + 1) with
      | .ok rest =>
        .ok ({ route_id := idx + 1, average_risk := round3 avg_risk,
               geometry := full_coords } :: rest)
      | .error e => .error e

/-- Python `min(l, key=f)` over `x :: l`: keep the current best, replace
it only when a strictly smaller key appears (first minimum wins). -/
def pyMinBy {α : Type} (f : α → ℚ) (x : α) : List α → α
  | [] => x
  | y :: ys => pyMinBy f (if f y < f x then y else x) ys

/-- The `try` block of `find_safest_route` (src/apih.py lines 148-190):
fetch GraphHopper, reject a body without `"paths"` with an
`HTTPException(400, message)`, compute the three origin-point signals
once, analyse every path, and select `min(routes_analysis, key=average_risk)`
(a `ValueError` when the paths list is empty).  Returns the winning
geometry and its average risk. -/
noncomputable def tryBody (st : AppState) (w : World) :
    Except PyExc (List (ℚ × ℚ) × ℚ) := do
  let gh_data ← match w.gh with
    | .error msg => Except.error (PyExc.other msg)
    | .ok d => Except.ok d
  let paths ← match gh_data.paths with
    | none =>
      Except.error (PyExc.http ⟨400, gh_data.message.getD "No routes found"⟩)
    | some ps => Except.ok ps
  let ws_daily := get_weather_severity w.weather w.nowT
  let weather_severity := ws_daily.1
  let incident_density := get_incident_density st.startlt st.startln w.gdacs
  let night_factor := get_night_factor ws_daily.2 w.nowT
  let routes_analysis ← analyzeRoutes incident_density weather_severity
    night_factor (fun c => get_road_isolation (w.roadResp c))
    (fun c => get_poi_inverse (w.poiResp c)) paths 0
  match routes_analysis with
  | [] => Except.error (PyExc.other "min() arg is an empty sequence")
  | a :: rest =>
    let safest := pyMinBy (fun x => x.average_risk) a rest
    Except.ok (safest.geometry, safest.average_risk)

/-- `GET /find-safest-route` (src/apih.py lines 125-194): the
coordinates-not-set guard sits outside the `try`; every exception the
`try` block raises — the inner `HTTPException(400, ...)` included — is
caught by `except Exception as e` and re-raised as
`HTTPException(500, str(e))`.  On success `pari` is set to the winning
average risk and the winning geometry is returned. -/
noncomputable def find_safest_route (st : AppState) (w : World) :
    Except HTTPError (List (ℚ × ℚ)) × AppState :=
  if st.startlt = 0 ∨ st.startln = 0 then
    (.error ⟨400, "Coordinates not set. Please call /get-cords first."⟩, st)
  else
    match tryBody st w with
    | .ok (geom, risk) => (.ok geom, { st with pari := risk })
    | .error e => (.error ⟨500, e.str⟩, st)

/-- `GET /risk` (src/apih.py lines 196-198): returns the cached `pari`. -/
def calculate_risk (st : AppState) : ℚ := st.pari

/-! ## Spec-side formulas and concrete fixtures -/

/-- The spec's per-route figure: the mean, over the sampled points, of
`0.35*incident + 0.20*road + 0.10*weather + 0.15*poi + 0.10*night`,
with the three origin signals held constant along the route. -/
def meanRouteRisk (incident_density weather_severity night_factor : ℚ)
    (road poi : ℚ × ℚ → ℚ) (pts : List (ℚ × ℚ)) : ℚ :=
  let risks := (sampleStep pts).map
    (fun c => 0.35 * incident_density + 0.20 * road c +
      0.10 * weather_severity + 0.15 * poi c + 0.10 * night_factor)
  risks.sum / (risks.length : ℚ)

/-- Solar noon of a daylight window, in minutes since midnight: the
midpoint of sunrise and sunset. -/
def solarNoon (d : DailyData) : ℚ :=
  ((to_minutes d.sunrise : ℚ) + (to_minutes d.sunset : ℚ)) / 2

/-- A state with both origin coordinates set and non-zero. -/
def stValid : AppState := ⟨10, 20, 11, 21, 0⟩

/-- A state whose origin latitude is zero but longitude is not. -/
def stZeroLat : AppState := ⟨0, 5, 1, 1, 7/10⟩

/-- A world with one single-point route and all signal fetches failing
or returning neutral counts. -/
def wOneRoute : World :=
  { gh := .ok ⟨some [⟨[(1, 2)]⟩], none⟩
    gdacs := none
    weather := none
    nowT := ⟨12, 0⟩
    roadResp := fun _ => some 50
    poiResp := fun _ => some 30 }

/-- A world with two single-point routes whose road counts differ, so
the second route is strictly riskier than the first. -/
def wTwoRoutes : World :=
  { gh := .ok ⟨some [⟨[(1, 2)]⟩, ⟨[(3, 4), (5, 6)]⟩], none⟩
    gdacs := none
    weather := none
    nowT := ⟨12, 0⟩
    roadResp := fun c => if c = (1, 2) then some 50 else some 0
    poiResp := fun _ => some 30 }

/-- A world whose GraphHopper body has no `"paths"` key. -/
def wNoPaths : World :=
  { gh := .ok ⟨none, some "Point 0 is out of bounds"⟩
    gdacs := none
    weather := none
    nowT := ⟨12, 0⟩
    roadResp := fun _ => none
    poiResp := fun _ => none }

/-- A world whose GraphHopper fetch itself raises. -/
def wGhDown : World :=
  { gh := .error "connection refused"
    gdacs := none
    weather := none
    nowT := ⟨12, 0⟩
    roadResp := fun _ => none
    poiResp := fun _ => none }

/-- A 25-point decoded path. -/
def l25 : List (ℚ × ℚ) := (List.range 25).map (fun i => ((i : ℚ), (i : ℚ)))

/-- A daylight window from 06:00 to 18:00 UTC (solar noon 12:00). -/
def d0618 : DailyData := ⟨⟨6, 0⟩, ⟨18, 0⟩⟩

/-! ## Sampling lemmas -/

/-- `sampleAux n l` picks the elements of `l` at indices `n, n+20, …`. -/
theorem sampleAux_getElem {α : Type} (l : List α) :
    ∀ n i : ℕ, (sampleAux n l)[i]? = l[n + 20 * i]? := by
  induction l with
  | nil => intro n i; simp [sampleAux]
  | cons x xs ih =>
    intro n i
    match n with
    | 0 =>
      match i with
      | 0 => simp [sampleAux]
      | i + 1 =>
        have h : 0 + 20 * (i + 1) = (19 + 20 * i) + 1 := by omega
        simp only [sampleAux, List.getElem?_cons_succ, ih 19 i, h]
    | n + 1 =>
      simp only [sampleAux, ih n i]
      have h : n + 1 + 20 * i = (n + 20 * i) + 1 := by omega
      simp only [h, List.getElem?_cons_succ]

/-- Length of the skip sampler. -/
theorem sampleAux_length {α : Type} (l : List α) :
    ∀ n : ℕ, (sampleAux n l).length = (l.length - n + 19) / 20 := by
  induction l with
  | nil => intro n; simp [sampleAux]
  | cons x xs ih =>
    intro n
    match n with
    | 0 =>
      simp only [sampleAux, List.length_cons, ih 19]
      omega
    | n + 1 =>
      simp only [sampleAux, List.length_cons, ih n]
      omega

/-- The skip sampler is a sublist of its input. -/
theorem sampleAux_sublist {α : Type} (l : List α) :
    ∀ n : ℕ, (sampleAux n l).Sublist l := by
  induction l with
  | nil => intro n; simp [sampleAux]
  | cons x xs ih =>
    intro n
    match n with
    | 0 => exact List.Sublist.cons₂ x (ih 19)
    | n + 1 => exact List.Sublist.cons x (ih n)

/-- `(n + 19) / 20` in ℕ is the ceiling of `n / 20`. -/
theorem ceil_div_twenty (n : ℕ) :
    ⌈(n : ℚ) / 20⌉ = (((n + 19) / 20 : ℕ) : ℤ) := by
  have h1 : ((n + 19) / 20 : ℕ) * 20 < n + 20 := by omega
  have h2 : n ≤ ((n + 19) / 20 : ℕ) * 20 := by omega
  have h1q : (((n + 19) / 20 : ℕ) : ℚ) * 20 < (n : ℚ) + 20 := by exact_mod_cast h1
  have h2q : (n : ℚ) ≤ (((n + 19) / 20 : ℕ) : ℚ) * 20 := by exact_mod_cast h2
  have hcast : ((((n + 19) / 20 : ℕ) : ℤ) : ℚ) = (((n + 19) / 20 : ℕ) : ℚ) := by
    exact_mod_cast rfl
  rw [Int.ceil_eq_iff, hcast]
  constructor
  · rw [lt_div_iff₀ (by norm_num : (0:ℚ) < 20)]
    linarith
  · rw [div_le_iff₀ (by norm_num : (0:ℚ) < 20)]
    linarith

/-- C6: for every decoded route geometry of N points (N ≥ 1), the
down-sampled sequence `full_coords[::20]` consists of every 20th point
starting with the first, preserves the input order (it is a sublist),
and has length `ceil(N/20)`; a 25-point path yields exactly 2 sampled
points, including the first point of the original sequence. -/
theorem sampleStep_every_20th (l : List (ℚ × ℚ)) (hN : 1 ≤ l.length) :
    (∀ i : ℕ, (sampleStep l)[i]? = l[20 * i]?) ∧
    (sampleStep l).Sublist l ∧
    (sampleStep l).length = (l.length + 19) / 20 ∧
    ((sampleStep l).length : ℤ) = ⌈(l.length : ℚ) / 20⌉ ∧
    (l.length = 25 → (sampleStep l).length = 2 ∧ (sampleStep l)[0]? = l[0]?) := by
  have hget : ∀ i : ℕ, (sampleStep l)[i]? = l[20 * i]? := by
    intro i
    have h := sampleAux_getElem l 0 i
    simpa [sampleStep] using h
  have hlen : (sampleStep l).length = (l.length + 19) / 20 := by
    have h := sampleAux_length l 0
    simpa [sampleStep] using h
  refine ⟨hget, sampleAux_sublist l 0, hlen, ?_, ?_⟩
  · rw [hlen, ceil_div_twenty]
  · intro h25
    constructor
    · rw [hlen, h25]
    · simpa using hget 0

/-- C6 witness: a concrete 25-point path has exactly 2 sampled points,
the first being the path's first point. -/
theorem sampleStep_every_20th_witness :
    (sampleStep l25).length = 2 ∧ (sampleStep l25)[0]? = l25[0]? :=
  (sampleStep_every_20th l25 (by with_unfolding_all decide)).2.2.2.2
    (by with_unfolding_all decide)

/-! ## C3: failure defaults of the signal sources -/

/-- C3: no signal source propagates an upstream failure (a failed
fetch/parse is the `none` input); each returns its neutral default:
incident density 0, weather severity 0 with a synthesized window
sunrise = sunset = now, road isolation 0.5, POI inverse 0.5,
night factor 0.5. -/
theorem signal_failure_defaults (lat lon : ℚ) (t : UTCTime) :
    get_incident_density lat lon none = 0 ∧
    get_weather_severity none t = (0, some ⟨t, t⟩) ∧
    get_road_isolation none = 1/2 ∧
    get_poi_inverse none = 1/2 ∧
    get_night_factor none t = 1/2 :=
  ⟨rfl, rfl, rfl, rfl, rfl⟩

/-! ## C9: haversine identities -/

/-- C9: the haversine distance (Earth radius 6371 km) is zero on equal
points and symmetric in its two points. -/
theorem haversine_zero_and_symm (lat1 lon1 lat2 lon2 : ℝ) :
    haversine lat1 lon1 lat1 lon1 = 0 ∧
    haversine lat1 lon1 lat2 lon2 = haversine lat2 lon2 lat1 lon1 :=
  ⟨haversine_self_zero lat1 lon1, haversine_symm lat1 lon1 lat2 lon2⟩

/-! ## C8: night factor formula and symmetry about solar noon -/

/-- C8 counterexample: one minute after solar noon the returned score is
`round(1/720, 3) = 0.001`, not the claim's unrounded `1/720`. -/
theorem night_factor_unrounded_fails :
    get_night_factor (some d0618) ⟨12, 1⟩ = 1/1000 ∧
    get_night_factor (some d0618) ⟨12, 1⟩ ≠
      min (|(to_minutes ⟨12, 1⟩ : ℚ) - solarNoon d0618| / 720) 1 := by
  constructor
  · set_option maxRecDepth 4000 in with_unfolding_all decide
  · set_option maxRecDepth 4000 in with_unfolding_all decide

/-- C8 amended: the night factor equals the claim's
`min(|now − noon| / 720, 1)` *rounded to 3 decimals*; it is still
symmetric about solar noon: two times equidistant from solar noon get
equal scores. -/
theorem night_factor_rounded_and_symmetric (d : DailyData) (t1 t2 : UTCTime)
    (h : |(to_minutes t1 : ℚ) - solarNoon d| = |(to_minutes t2 : ℚ) - solarNoon d|) :
    get_night_factor (some d) t1 =
      round3 (min (|(to_minutes t1 : ℚ) - solarNoon d| / 720) 1) ∧
    get_night_factor (some d) t1 = get_night_factor (some d) t2 := by
  have hform : ∀ t : UTCTime, get_night_factor (some d) t =
      round3 (min (|(to_minutes t : ℚ) - solarNoon d| / 720) 1) := by
    intro t; rfl
  refine ⟨hform t1, ?_⟩
  rw [hform t1, hform t2, h]

/-- C8 witness: 11:00 and 13:00 are equidistant from the solar noon of
a 06:00–18:00 window and get equal night factors. -/
theorem night_factor_symmetric_witness :
    get_night_factor (some d0618) ⟨11, 0⟩ =
      round3 (min (|(to_minutes ⟨11, 0⟩ : ℚ) - solarNoon d0618| / 720) 1) ∧
    get_night_factor (some d0618) ⟨11, 0⟩ = get_night_factor (some d0618) ⟨13, 0⟩ :=
  night_factor_rounded_and_symmetric d0618 ⟨11, 0⟩ ⟨13, 0⟩
    (by with_unfolding_all decide)

/-! ## C2: range of the signal scores -/

/-- Rounding to 3 decimals keeps a value of [0,1] inside [0,1]. -/
theorem round3_mem_unit (x : ℚ) (h0 : 0 ≤ x) (h1 : x ≤ 1) :
    0 ≤ round3 x ∧ round3 x ≤ 1 := by
  have key : ∀ m : ℤ, 0 ≤ m → m ≤ 1000 → 0 ≤ (m : ℚ) / 1000 ∧ (m : ℚ) / 1000 ≤ 1 := by
    intro m hm0 hm1
    constructor
    · apply div_nonneg _ (by norm_num)
      exact_mod_cast hm0
    · rw [div_le_one (by norm_num : (0:ℚ) < 1000)]
      exact_mod_cast hm1
  have hy1 : x * 1000 ≤ 1000 := by nlinarith
  have hf0 : (0:ℤ) ≤ ⌊x * 1000⌋ := Int.floor_nonneg.mpr (by positivity)
  have hfle : (⌊x * 1000⌋ : ℚ) ≤ x * 1000 := Int.floor_le _
  have hfub : ⌊x * 1000⌋ ≤ 1000 := by
    have h := Int.floor_le_floor (α := ℚ) hy1
    have h1000 : ⌊(1000:ℚ)⌋ = 1000 := by norm_num
    rw [h1000] at h
    exact h
  unfold round3
  dsimp only
  split_ifs with hgt hlt heven
  · have hstrict : ⌊x * 1000⌋ < 1000 := by
      have : (⌊x * 1000⌋ : ℚ) < 1000 := by linarith
      exact_mod_cast this
    exact key _ (by omega) (by omega)
  · exact key _ hf0 hfub
  · exact key _ hf0 hfub
  · have hr : x * 1000 - (⌊x * 1000⌋ : ℚ) = 1/2 :=
      le_antisymm (not_lt.mp hgt) (not_lt.mp hlt)
    have hstrict : ⌊x * 1000⌋ < 1000 := by
      have : (⌊x * 1000⌋ : ℚ) < 1000 := by linarith
      exact_mod_cast this
    exact key _ (by omega) (by omega)

/-- The incident-density accumulator stays non-negative when every
severity is non-negative. -/
theorem incident_foldl_nonneg (lat lon : ℚ) :
    ∀ evs : List GDACSEvent, (∀ e ∈ evs, 0 ≤ e.severity) →
      ∀ s : ℚ, 0 ≤ s →
      0 ≤ evs.foldl (fun score event =>
        if haversine lat lon event.lat event.lon < 300 then
          score + min (event.severity / 10) 1
        else score) s := by
  intro evs
  induction evs with
  | nil => intro _ s hs; simpa using hs
  | cons e es ih =>
    intro hsev s hs
    simp only [List.foldl_cons]
    apply ih (fun x hx => hsev x (List.mem_cons_of_mem e hx))
    split
    · have h1 : 0 ≤ min (e.severity / 10) 1 :=
        le_min (div_nonneg (hsev e (List.mem_cons_self e es)) (by norm_num))
          zero_le_one
      linarith
    · exact hs

/-- C2 counterexample: an adversarial Overpass payload with road count
−50 makes `get_road_isolation` return 2, outside [0,1]. -/
theorem road_isolation_exceeds_unit :
    get_road_isolation (some (-50)) = 2 ∧ ¬(get_road_isolation (some (-50)) ≤ 1) := by
  with_unfolding_all decide

/-- C2 amended: each of the five signal scores lies in [0,1] for every
input whose parsed severities and parsed road/amenity counts are
non-negative (the weather score and the night factor unconditionally);
negative severities or counts, which the code does not clamp, are
excluded. -/
theorem signal_scores_unit_range
    (lat lon : ℚ) (evs : List GDACSEvent) (wp : Option WeatherPayload)
    (t : UTCTime) (daily : Option DailyData) (rc pc : Option ℤ)
    (hsev : ∀ e ∈ evs, 0 ≤ e.severity)
    (hrc : ∀ n : ℤ, rc = some n → 0 ≤ n)
    (hpc : ∀ n : ℤ, pc = some n → 0 ≤ n) :
    (0 ≤ get_incident_density lat lon (some evs) ∧
      get_incident_density lat lon (some evs) ≤ 1) ∧
    (0 ≤ (get_weather_severity wp t).1 ∧ (get_weather_severity wp t).1 ≤ 1) ∧
    (0 ≤ get_road_isolation rc ∧ get_road_isolation rc ≤ 1) ∧
    (0 ≤ get_poi_inverse pc ∧ get_poi_inverse pc ≤ 1) ∧
    (0 ≤ get_night_factor daily t ∧ get_night_factor daily t ≤ 1) := by
  refine ⟨?_, ?_, ?_, ?_, ?_⟩
  · unfold get_incident_density
    dsimp only
    exact ⟨le_min (incident_foldl_nonneg lat lon evs hsev 0 le_rfl) zero_le_one,
      min_le_right _ _⟩
  · match wp with
    | none => exact ⟨le_rfl, zero_le_one⟩
    | some p =>
      unfold get_weather_severity
      dsimp only
      have hsc : (0:ℚ) ≤
          (if 40 < p.windspeed then 1/2 else 0) +
          (if p.weathercode = 61 ∨ p.weathercode = 63 ∨ p.weathercode = 65
            then 3/10 else 0) +
          (if p.weathercode = 95 ∨ p.weathercode = 96 ∨ p.weathercode = 99
            then 7/10 else 0) := by
        split_ifs <;> norm_num
      exact ⟨le_min hsc zero_le_one, min_le_right _ _⟩
  · match rc with
    | none => exact ⟨by norm_num [get_road_isolation], by norm_num [get_road_isolation]⟩
    | some n =>
      have hn : (0:ℚ) ≤ (n : ℚ) := by exact_mod_cast hrc n rfl
      unfold get_road_isolation
      dsimp only
      constructor
      · have := min_le_right ((n : ℚ) / 50) 1
        linarith
      · have : (0:ℚ) ≤ min ((n : ℚ) / 50) 1 :=
          le_min (div_nonneg hn (by norm_num)) zero_le_one
        linarith
  · match pc with
    | none => exact ⟨by norm_num [get_poi_inverse], by norm_num [get_poi_inverse]⟩
    | some n =>
      have hn : (0:ℚ) ≤ (n : ℚ) := by exact_mod_cast hpc n rfl
      unfold get_poi_inverse
      dsimp only
      constructor
      · have := min_le_right ((n : ℚ) / 30) 1
        linarith
      · have : (0:ℚ) ≤ min ((n : ℚ) / 30) 1 :=
          le_min (div_nonneg hn (by norm_num)) zero_le_one
        linarith
  · match daily with
    | none => exact ⟨by norm_num [get_night_factor], by norm_num [get_night_factor]⟩
    | some d =>
      unfold get_night_factor
      dsimp only
      exact round3_mem_unit _ (le_min (by positivity) zero_le_one) (min_le_right _ _)

/-- C2 witness: concrete well-formed payloads put all five scores in
[0,1]. -/
theorem signal_scores_unit_range_witness :
    (0 ≤ get_incident_density 1 1 (some [⟨1, 1, 5⟩]) ∧
      get_incident_density 1 1 (some [⟨1, 1, 5⟩]) ≤ 1) ∧
    (0 ≤ (get_weather_severity (some ⟨50, 61, some d0618⟩) ⟨12, 0⟩).1 ∧
      (get_weather_severity (some ⟨50, 61, some d0618⟩) ⟨12, 0⟩).1 ≤ 1) ∧
    (0 ≤ get_road_isolation (some 10) ∧ get_road_isolation (some 10) ≤ 1) ∧
    (0 ≤ get_poi_inverse (some 0) ∧ get_poi_inverse (some 0) ≤ 1) ∧
    (0 ≤ get_night_factor (some d0618) ⟨12, 0⟩ ∧
      get_night_factor (some d0618) ⟨12, 0⟩ ≤ 1) :=
  signal_scores_unit_range 1 1 [⟨1, 1, 5⟩] (some ⟨50, 61, some d0618⟩)
    ⟨12, 0⟩ (some d0618) (some 10) (some 0)
    (by intro e he; simp at he; rw [he]; norm_num)
    (by intro n hn; cases hn; norm_num)
    (by intro n hn; cases hn; norm_num)

/-! ## Route-analysis loop characterisation -/

/-- When the analysis loop succeeds, it produces one entry per path, in
order: `route_id = i0 + j + 1`, the rounded mean risk over the sampled
points, and the full decoded geometry. -/
theorem analyzeRoutes_ok (a b c : ℚ) (road poi : ℚ × ℚ → ℚ) :
    ∀ (paths : List GHPath) (i0 : ℕ) (l : List RouteAnalysis),
      analyzeRoutes a b c road poi paths i0 = .ok l →
      l.length = paths.length ∧
      ∀ j (hj : j < l.length) (hj2 : j < paths.length),
        l.get ⟨j, hj⟩ =
          { route_id := i0 + j + 1
            average_risk := round3 (meanRouteRisk a b c road poi
              (paths.get ⟨j, hj2⟩).points)
            geometry := (paths.get ⟨j, hj2⟩).points } := by
  intro paths
  induction paths with
  | nil =>
    intro i0 l h
    simp only [analyzeRoutes] at h
    injection h with h
    subst h
    refine ⟨rfl, ?_⟩
    intro j hj hj2
    simp at hj
  | cons p ps ih =>
    intro i0 l h
    simp only [analyzeRoutes] at h
    split at h
    · exact absurd h (by simp)
    · split at h
      · rename_i rest hrest
        injection h with h
        subst h
        obtain ⟨ihlen, ihget⟩ := ih (i0 + 1) rest hrest
        refine ⟨by simp [ihlen], ?_⟩
        intro j hj hj2
        match j with
        | 0 =>
          simp only [List.get]
          rfl
        | j + 1 =>
          have hj' : j < rest.length := by simpa using hj
          have hj2' : j < ps.length := by simpa using hj2
          simp only [List.get_cons_succ]
          rw [ihget j hj' hj2']
          congr 1
          omega
      · exact absurd h (by simp)

/-! ## Python `min(·, key=·)` characterisation -/

/-- `pyMinBy f x l` is the first element of `x :: l` attaining the
minimum of `f`: every element has a key at least as large, and every
earlier element has a strictly larger key. -/
theorem pyMinBy_spec {α : Type} (f : α → ℚ) :
    ∀ (l : List α) (x : α),
      ∃ (k : ℕ) (a : α), (x :: l)[k]? = some a ∧ pyMinBy f x l = a ∧
        (∀ (j : ℕ) (b : α), (x :: l)[j]? = some b → f a ≤ f b) ∧
        (∀ (j : ℕ) (b : α), j < k → (x :: l)[j]? = some b → f a < f b) := by
  intro l
  induction l with
  | nil =>
    intro x
    refine ⟨0, x, by simp, rfl, ?_, ?_⟩
    · intro j b hjb
      match j with
      | 0 =>
        simp at hjb
        subst hjb
        exact le_rfl
      | j + 1 => simp at hjb
    · intro j b hjk hjb
      omega
  | cons y ys ih =>
    intro x
    simp only [pyMinBy]
    by_cases hxy : f y < f x
    · rw [if_pos hxy]
      obtain ⟨k, a, hka, heq, hmin, hfirst⟩ := ih y
      refine ⟨k + 1, a, by simpa using hka, heq, ?_, ?_⟩
      · intro j b hjb
        match j with
        | 0 =>
          simp at hjb
          subst hjb
          have h0 := hmin 0 y (by simp)
          linarith
        | j + 1 =>
          exact hmin j b (by simpa using hjb)
      · intro j b hjk hjb
        match j with
        | 0 =>
          simp at hjb
          subst hjb
          have h0 := hmin 0 y (by simp)
          linarith
        | j + 1 =>
          exact hfirst j b (by omega) (by simpa using hjb)
    · rw [if_neg hxy]
      have hxle : f x ≤ f y := not_lt.mp hxy
      obtain ⟨k, a, hka, heq, hmin, hfirst⟩ := ih x
      match k, hka with
      | 0, hka =>
        simp only [List.getElem?_cons_zero] at hka
        injection hka with hka
        subst hka
        refine ⟨0, x, by simp, heq, ?_, ?_⟩
        · intro j b hjb
          match j with
          | 0 =>
            simp at hjb
            subst hjb
            exact le_rfl
          | 1 =>
            simp at hjb
            subst hjb
            exact hxle
          | j + 2 =>
            exact hmin (j + 1) b (by simpa using hjb)
        · intro j b hjk hjb
          omega
      | k + 1, hka =>
        refine ⟨k + 2, a, by simpa using hka, heq, ?_, ?_⟩
        · intro j b hjb
          match j with
          | 0 =>
            simp at hjb
            subst hjb
            exact hmin 0 x (by simp)
          | 1 =>
            simp at hjb
            subst hjb
            exact le_trans (hmin 0 x (by simp)) hxle
          | j + 2 =>
            exact hmin (j + 1) b (by simpa using hjb)
        · intro j b hjk hjb
          match j with
          | 0 =>
            simp at hjb
            subst hjb
            exact hfirst 0 x (by omega) (by simp)
          | 1 =>
            simp at hjb
            subst hjb
            exact lt_of_lt_of_le (hfirst 0 x (by omega) (by simp)) hxle
          | j + 2 =>
            exact hfirst (j + 1) b (by omega) (by simpa using hjb)

/-- `analyzeRoutes_ok` restated through `getElem?`. -/
theorem analyzeRoutes_get? (a b c : ℚ) (road poi : ℚ × ℚ → ℚ)
    (paths : List GHPath) (i0 : ℕ) (l : List RouteAnalysis)
    (h : analyzeRoutes a b c road poi paths i0 = .ok l)
    (j : ℕ) (p : GHPath) (hp : paths[j]? = some p) :
    l[j]? = some { route_id := i0 + j + 1
                   average_risk := round3 (meanRouteRisk a b c road poi p.points)
                   geometry := p.points } := by
  obtain ⟨hlen, hget⟩ := analyzeRoutes_ok a b c road poi paths i0 l h
  obtain ⟨hj2, hpe⟩ := List.getElem?_eq_some.mp hp
  have hj : j < l.length := by omega
  have hpp : paths.get ⟨j, hj2⟩ = p := by
    rw [List.get_eq_getElem]
    exact hpe
  have h1 : l[j] = l.get ⟨j, hj⟩ := (List.get_eq_getElem l ⟨j, hj⟩).symm
  rw [List.getElem?_eq_getElem hj, h1, hget j hj hj2, hpp]

/-! ## C1: the per-route average risk -/

/-- C1: for every candidate route the stored `average_risk` is the mean
over its sampled points of
`0.35*incidentDensity + 0.20*roadIsolation + 0.10*weatherSeverity +
0.15*poiDensityInverse + 0.10*nightFactor` rounded to 3 decimals, where
incident density, weather severity and night factor are computed once
for the origin and held constant, while road isolation and POI inverse
are recomputed at each sampled point. -/
theorem averageRisk_is_rounded_mean (st : AppState) (w : World)
    (ghd : GHData) (paths : List GHPath) (analyses : List RouteAnalysis)
    (hgh : w.gh = .ok ghd) (hpaths : ghd.paths = some paths)
    (hana : analyzeRoutes (get_incident_density st.startlt st.startln w.gdacs)
        (get_weather_severity w.weather w.nowT).1
        (get_night_factor (get_weather_severity w.weather w.nowT).2 w.nowT)
        (fun c => get_road_isolation (w.roadResp c))
        (fun c => get_poi_inverse (w.poiResp c)) paths 0 = .ok analyses)
    (j : ℕ) (a : RouteAnalysis) (p : GHPath)
    (ha : analyses[j]? = some a) (hp : paths[j]? = some p) :
    a.average_risk = round3 (meanRouteRisk
      (get_incident_density st.startlt st.startln w.gdacs)
      (get_weather_severity w.weather w.nowT).1
      (get_night_factor (get_weather_severity w.weather w.nowT).2 w.nowT)
      (fun c => get_road_isolation (w.roadResp c))
      (fun c => get_poi_inverse (w.poiResp c)) p.points) := by
  have h := analyzeRoutes_get? _ _ _ _ _ paths 0 analyses hana j p hp
  rw [ha] at h
  injection h with h
  rw [h]

/-- C1 witness: in a one-route world the stored risk is the rounded
mean of the route's sampled-point risks. -/
theorem averageRisk_is_rounded_mean_witness :
    (⟨1, 0, [(1, 2)]⟩ : RouteAnalysis).average_risk = round3 (meanRouteRisk
      (get_incident_density stValid.startlt stValid.startln wOneRoute.gdacs)
      (get_weather_severity wOneRoute.weather wOneRoute.nowT).1
      (get_night_factor (get_weather_severity wOneRoute.weather wOneRoute.nowT).2
        wOneRoute.nowT)
      (fun c => get_road_isolation (wOneRoute.roadResp c))
      (fun c => get_poi_inverse (wOneRoute.poiResp c))
      (⟨[(1, 2)]⟩ : GHPath).points) :=
  averageRisk_is_rounded_mean stValid wOneRoute ⟨some [⟨[(1, 2)]⟩], none⟩
    [⟨[(1, 2)]⟩] [⟨1, 0, [(1, 2)]⟩] rfl rfl (by with_unfolding_all rfl)
    0 ⟨1, 0, [(1, 2)]⟩ ⟨[(1, 2)]⟩ rfl rfl

/-! ## C5: selection of the minimum-risk route -/

/-- C5: when the request passes validation and every candidate is
analysed, the endpoint returns the full decoded (unsampled) geometry of
the route whose `average_risk` is minimal — the first such route when
several tie — and caches exactly that winning `average_risk` in the
process-wide state read by `/risk`. -/
theorem safest_route_selection (st : AppState) (w : World)
    (ghd : GHData) (paths : List GHPath) (analyses : List RouteAnalysis)
    (hlt : ¬st.startlt = 0) (hln : ¬st.startln = 0)
    (hgh : w.gh = .ok ghd) (hpaths : ghd.paths = some paths)
    (hana : analyzeRoutes (get_incident_density st.startlt st.startln w.gdacs)
        (get_weather_severity w.weather w.nowT).1
        (get_night_factor (get_weather_severity w.weather w.nowT).2 w.nowT)
        (fun c => get_road_isolation (w.roadResp c))
        (fun c => get_poi_inverse (w.poiResp c)) paths 0 = .ok analyses)
    (k : ℕ) (a : RouteAnalysis) (p : GHPath)
    (hka : analyses[k]? = some a) (hkp : paths[k]? = some p)
    (hmin : ∀ (j : ℕ) (b : RouteAnalysis), analyses[j]? = some b →
      a.average_risk ≤ b.average_risk)
    (hfirst : ∀ (j : ℕ) (b : RouteAnalysis), j < k → analyses[j]? = some b →
      a.average_risk < b.average_risk) :
    find_safest_route st w = (.ok p.points, { st with pari := a.average_risk }) := by
  have hgeom : a.geometry = p.points := by
    have h := analyzeRoutes_get? _ _ _ _ _ paths 0 analyses hana k p hkp
    rw [hka] at h
    injection h with h
    rw [h]
  unfold find_safest_route
  rw [if_neg (not_or.mpr ⟨hlt, hln⟩)]
  have htry : tryBody st w = .ok (p.points, a.average_risk) := by
    unfold tryBody
    simp only [hgh, hpaths, hana, bind, Except.bind]
    obtain ⟨a0, rest, rfl⟩ : ∃ a0 rest, analyses = a0 :: rest := by
      cases analyses with
      | nil => simp at hka
      | cons a0 rest => exact ⟨a0, rest, rfl⟩
    dsimp only
    obtain ⟨k0, m, hk0m, heq, hmin0, hfirst0⟩ :=
      pyMinBy_spec (fun x => x.average_risk) rest a0
    have h1 : a.average_risk ≤ m.average_risk := hmin k0 m hk0m
    have h2 : m.average_risk ≤ a.average_risk := hmin0 k a hka
    have hkk : k0 = k := by
      by_contra hne
      rcases Nat.lt_or_ge k0 k with hlt2 | hge
      · exact absurd (hfirst k0 m hlt2 hk0m) (not_lt.mpr h2)
      · have hgt2 : k < k0 := by omega
        exact absurd (hfirst0 k a hgt2 hka) (not_lt.mpr h1)
    have hma : m = a := by
      rw [hkk, hka] at hk0m
      injection hk0m with h
      exact h.symm
    rw [heq, hma, hgeom]
  rw [htry]

/-- C5 witness: with two candidate routes, the first (risk 0) beats the
second (risk 0.2); its geometry is returned and its risk cached. -/
theorem safest_route_selection_witness :
    find_safest_route stValid wTwoRoutes =
      (.ok ((⟨[(1, 2)]⟩ : GHPath).points),
       { stValid with pari := (⟨1, 0, [(1, 2)]⟩ : RouteAnalysis).average_risk }) :=
  safest_route_selection stValid wTwoRoutes
    ⟨some [⟨[(1, 2)]⟩, ⟨[(3, 4), (5, 6)]⟩], none⟩
    [⟨[(1, 2)]⟩, ⟨[(3, 4), (5, 6)]⟩]
    [⟨1, 0, [(1, 2)]⟩, ⟨2, 1/5, [(3, 4), (5, 6)]⟩]
    (by with_unfolding_all decide) (by with_unfolding_all decide)
    rfl rfl (by with_unfolding_all rfl)
    0 ⟨1, 0, [(1, 2)]⟩ ⟨[(1, 2)]⟩ rfl rfl
    (by
      intro j b hjb
      match j with
      | 0 =>
        simp only [List.getElem?_cons_zero, Option.some.injEq] at hjb
        rw [← hjb]
      | 1 =>
        simp only [List.getElem?_cons_succ, List.getElem?_cons_zero,
          Option.some.injEq] at hjb
        rw [← hjb]
        norm_num
      | j + 2 => simp at hjb)
    (by intro j b hj hjb; exact absurd hj (Nat.not_lt_zero j))

/-! ## C4: the no-paths response -/

/-- C4 (code bug): when the GraphHopper body has no `"paths"`, the
intended `HTTPException(400, provider message)` is raised inside the
`try` block, swallowed by `except Exception`, and re-raised as a 500
whose detail is `str(e) = "400: <message>"` — the client sees a server
error, not the claimed 400. -/
theorem no_paths_resurfaces_as_500 :
    find_safest_route stValid wNoPaths =
      (.error ⟨500, "400: Point 0 is out of bounds"⟩, stValid) := by
  with_unfolding_all rfl

/-! ## C7: the coordinates-not-set guard -/

/-- C7 counterexample: the stored origin (0, 5) differs from the
default-zero coordinate, yet the request is rejected with the
coordinates-not-set 400 (the guard tests each component separately). -/
theorem zero_latitude_rejected :
    ¬(stZeroLat.startlt = 0 ∧ stZeroLat.startln = 0) ∧
    find_safest_route stZeroLat wOneRoute =
      (.error ⟨400, "Coordinates not set. Please call /get-cords first."⟩,
       stZeroLat) := by
  constructor
  · with_unfolding_all decide
  · with_unfolding_all rfl

/-- C7 amended: the guard rejects — without consulting any upstream —
exactly when the origin latitude **or** longitude equals zero (so an
origin with a single zero component is also rejected); when both are
non-zero the GraphHopper provider is contacted (its fetch outcome
determines the response). -/
theorem coordinate_guard (st : AppState) (w : World) :
    (st.startlt = 0 ∨ st.startln = 0 →
      find_safest_route st w =
        (.error ⟨400, "Coordinates not set. Please call /get-cords first."⟩, st)) ∧
    (¬st.startlt = 0 → ¬st.startln = 0 → ∀ msg : String, w.gh = .error msg →
      find_safest_route st w = (.error ⟨500, msg⟩, st)) := by
  constructor
  · intro h
    unfold find_safest_route
    rw [if_pos h]
  · intro h1 h2 msg hwe
    unfold find_safest_route
    rw [if_neg (not_or.mpr ⟨h1, h2⟩)]
    have htry : tryBody st w = .error (.other msg) := by
      unfold tryBody
      rw [hwe]
      rfl
    rw [htry]
    rfl

/-- C7 witness: (0, 5) is rejected with the 400; a valid origin reaches
the provider, whose connection failure surfaces as the 500. -/
theorem coordinate_guard_witness :
    find_safest_route stZeroLat wNoPaths =
      (.error ⟨400, "Coordinates not set. Please call /get-cords first."⟩,
       stZeroLat) ∧
    find_safest_route stValid wGhDown = (.error ⟨500, "connection refused"⟩, stValid) :=
  ⟨(coordinate_guard stZeroLat wNoPaths).1 (by with_unfolding_all decide),
   (coordinate_guard stValid wGhDown).2 (by with_unfolding_all decide)
     (by with_unfolding_all decide) "connection refused" rfl⟩

/-! ## C10: the cached risk survives every failure -/

/-- C10: if `/find-safest-route` ends in an error of any kind, the
process-wide cached risk `pari` keeps the value it had before the
request; it is 0 at process start and is only overwritten after a
winning route has been fully determined. -/
theorem error_preserves_pari (st : AppState) (w : World) (e : HTTPError)
    (h : (find_safest_route st w).1 = .error e) :
    (find_safest_route st w).2.pari = st.pari ∧ initialState.pari = 0 := by
  refine ⟨?_, rfl⟩
  unfold find_safest_route at h ⊢
  by_cases hc : st.startlt = 0 ∨ st.startln = 0
  · rw [if_pos hc]
  · rw [if_neg hc] at h ⊢
    cases htry : tryBody st w with
    | ok v =>
      obtain ⟨g, r⟩ := v
      rw [htry] at h
      simp at h
    | error pe => rfl

/-- C10 witness: a rejected request leaves the previously cached risk
(here 0.7) untouched. -/
theorem error_preserves_pari_witness :
    (find_safest_route stZeroLat wOneRoute).2.pari = stZeroLat.pari ∧
    initialState.pari = 0 :=
  error_preserves_pari stZeroLat wOneRoute
    ⟨400, "Coordinates not set. Please call /get-cords first."⟩
    (by with_unfolding_all rfl)

end SafeMapper
